import Mathlib

/-!
Verification of the agent orchestration core of `agentops-demo`
(`src/agentops_demo/agent_development/agent/notebooks/app.py`).

The module wires a LangGraph state machine with two nodes (`agent`, `tools`),
a router `should_continue`, a retrying model invoker `call_model`, a
preprocessor that prepends a system message, and a response adapter
(`predict` buffered, `predict_stream` streaming).  This file gives a shallow
embedding of those functions and proves the spec's claims about them.
-/

set_option autoImplicit false

/-- A tool-call request as carried on an assistant message
(`{id, tool_name, arguments}` in the data model). -/
structure ToolCallRequest where
  id : String
  tool_name : String
  arguments : String
deriving DecidableEq

/-- A message dict of the conversation state.  `content` is `Option String`
because the Python dict may carry `None` (in particular the system message
built from `system_prompt=None`).  `tool_calls`/`tool_call_id` being `none`
models the key being absent from the dict (or its value being `None`). -/
structure Msg where
  role : String
  content : Option String := none
  tool_calls : Option (List ToolCallRequest) := none
  tool_call_id : Option String := none
deriving DecidableEq

/-- The state threaded through the graph: `ChatAgentState` with its
`messages` list. -/
structure ChatAgentState where
  messages : List Msg
deriving DecidableEq

/-- Runtime faults the embedded code can raise.  `unboundLocal v` is Python's
error for reading a local variable `v` never assigned on the taken path;
`keyError k` is a failed `d[k]` lookup; `indexError` a failed `l[-1]`;
`modelUnavailable` is the typed error the spec says a corrected
implementation would raise (the current code never does). -/
inductive AgentError
  | unboundLocal (var : String)
  | modelUnavailable
  | keyError (key : String)
  | indexError
deriving DecidableEq

/-- The value of `should_continue`: `Literal["tools", END]`. -/
inductive Route
  | tools
  | END
deriving DecidableEq

/-- Python truthiness of `last_message.get("tool_calls")`: `None` (absent
key) and the empty list are falsy, a non-empty list is truthy. -/
def pyTruthy : Option (List ToolCallRequest) → Bool
  | none => false
  | some l => !l.isEmpty

/-- `should_continue` (app.py lines 75-80): read `messages[-1]`; return
`"tools"` when its `tool_calls` entry is truthy, `END` otherwise.
`messages[-1]` on an empty list raises `IndexError`. -/
def should_continue (state : ChatAgentState) : Except AgentError Route :=
  match state.messages.getLast? with
  | none => .error .indexError
  | some last_message =>
      if pyTruthy last_message.tool_calls then .ok .tools else .ok .END

/-- The fixed system preamble bound at module scope (app.py line 66). -/
def system_prompt : String := "You are a Databricks expert. "

/-- `preprocessor` (app.py line 82): prepend
`{"role": "system", "content": system_prompt}` to `state["messages"]`.
The system message dict has no `tool_calls`/`tool_call_id` keys, and its
content is whatever the `system_prompt` argument was (possibly `None`). -/
def preprocessor (sp : Option String) (state : ChatAgentState) : List Msg :=
  [{ role := "system", content := sp }] ++ state.messages

/-- `model_runnable = preprocessor | model` (app.py line 83): the composed
runnable feeds the preprocessor's output to the model.  The model is
abstracted as a function of its input message list and an attempt index
(successive retries may observe different transient outcomes); a `.error`
value models the underlying call raising. -/
def model_runnable (rawModel : List Msg → Nat → Except Unit Msg)
    (sp : Option String) (state : ChatAgentState) (attempt : Nat) :
    Except Unit Msg :=
  rawModel (preprocessor sp state) attempt

/-- The body of `call_model`'s retry loop (app.py lines 86-93):
`failing = True; retry = 10; while failing and retry >= 0: try: response =
invoke(...); failing = False; except: retry -= 1`.  `invoke i` is the
outcome of the i-th attempt (same input every time — the loop never changes
`state`).  On success the loop exits and `response` is returned; once
`retry` drops below 0 the loop exits with `response` never assigned, so the
trailing `return {"messages": [response]}` raises an unbound-local fault. -/
def call_model_go (invoke : Nat → Except Unit Msg) (i : Nat) (retry : Int) :
    Except AgentError Msg :=
  if 0 ≤ retry then
    match invoke i with
    | .ok response => .ok response
    | .error _ => call_model_go invoke (i + 1) (retry - 1)
  else
    .error (.unboundLocal "response")
termination_by (retry + 1).toNat
decreasing_by simp_wf; omega

/-- `call_model` (app.py lines 85-94): run the retry loop starting at
attempt 0 with `retry = 10`, invoking `model_runnable` on the unchanged
`state` each attempt.  The returned message is the one put into
`{"messages": [response]}`. -/
def call_model (invoke : ChatAgentState → Nat → Except Unit Msg)
    (state : ChatAgentState) : Except AgentError Msg :=
  call_model_go (invoke state) 0 10

/-- A capability in the Tool Registry: name, description, and an invocation
function; `.error e` models the underlying tool raising with message `e`. -/
structure Tool where
  name : String
  description : String
  invoke : String → Except String String

/-- A tool-call result: `{tool_call_id, output, failed}`. -/
structure ToolCallResult where
  tool_call_id : String
  output : String
  failed : Bool
deriving DecidableEq

/-- Modelled from the spec: processing of a single tool-call request by the
repository's tools node, which is `ChatAgentToolNode(tools)` (app.py line
98); the executor implementation lives in the mlflow/langgraph libraries
and is not under src/.  Per spec section 4.3: an unknown tool name gives
`failed=true` with an explanatory output; a tool invocation that raises is
caught and converted to `failed=true` with the failure message as
output. -/
def execute_one (registry : List Tool) (req : ToolCallRequest) :
    ToolCallResult :=
  match registry.find? (fun t => t.name == req.tool_name) with
  | none =>
      { tool_call_id := req.id,
        output := "Error: unknown tool " ++ req.tool_name, failed := true }
  | some t =>
      match t.invoke req.arguments with
      | .ok out => { tool_call_id := req.id, output := out, failed := false }
      | .error e => { tool_call_id := req.id, output := e, failed := true }

/-- Modelled from the spec: the Tool Executor, one result per request in
request order; failures are per-request values, never propagated as a
process-level fault (spec section 4.3). -/
def execute (registry : List Tool) (requests : List ToolCallRequest) :
    List ToolCallResult :=
  requests.map (execute_one registry)

/-- A tool-call result folded back into the conversation as a tool
message. -/
def toolMsg (r : ToolCallResult) : Msg :=
  { role := "tool", content := some r.output,
    tool_call_id := some r.tool_call_id }

/-- The tools node: read the `tool_calls` of the most recent message,
execute them against the registry, and return the resulting tool
messages. -/
def tool_node (registry : List Tool) (state : ChatAgentState) : List Msg :=
  (execute registry
      ((state.messages.getLast?.map fun m => m.tool_calls.getD []).getD
        [])).map toolMsg

/-- The named graph nodes (app.py lines 99-100). -/
inductive GNode
  | agent
  | tools
deriving DecidableEq

/-- One `StepUpdate` of `stream_mode="updates"`: the node's name and the
new messages its returned dict carries under "messages". -/
abbrev StepUpdate := String × List Msg

/-- How a bounded run of the graph ended: reached `END`, ran out of fuel
(the observation bound — the graph itself has no iteration cap), or a node
raised. -/
inductive RunOutcome
  | finished (final : ChatAgentState)
  | outOfFuel (nd : GNode) (s : ChatAgentState)
  | failed (e : AgentError)
deriving DecidableEq

/-- The compiled workflow (app.py lines 96-104) run for at most `fuel` node
executions, returning the stream of updates produced and the outcome.
Edges: `START → agent` (a run is entered at `agent`), conditional
`agent → tools`/`agent → END` via `should_continue`, and `tools → agent`
unconditionally.  The agent node runs `call_model` on
`model_runnable = preprocessor | model` and appends the reply; the tools
node appends the tool messages of `tool_node`. -/
def runGraph (rawModel : List Msg → Nat → Except Unit Msg)
    (registry : List Tool) (sp : Option String) :
    Nat → GNode → ChatAgentState → List StepUpdate × RunOutcome
  | 0, nd, s => ([], .outOfFuel nd s)
  | fuel + 1, .agent, s =>
      match call_model (model_runnable rawModel sp) s with
      | .error e => ([], .failed e)
      | .ok reply =>
          match should_continue ⟨s.messages ++ [reply]⟩ with
          | .error e => ([("agent", [reply])], .failed e)
          | .ok .tools =>
              let rest :=
                runGraph rawModel registry sp fuel .tools
                  ⟨s.messages ++ [reply]⟩
              (("agent", [reply]) :: rest.1, rest.2)
          | .ok .END =>
              ([("agent", [reply])], .finished ⟨s.messages ++ [reply]⟩)
  | fuel + 1, .tools, s =>
      let rest :=
        runGraph rawModel registry sp fuel .agent
          ⟨s.messages ++ tool_node registry s⟩
      (("tools", tool_node registry s) :: rest.1, rest.2)

/-- The values of one event of `agent.stream(..., stream_mode="updates")`:
each node's update dict, which may or may not have a "messages" entry. -/
structure NodeData where
  messages : Option (List Msg)
deriving DecidableEq

/-- The events a graph run's update stream delivers: one single-entry dict
per step, with the "messages" key always present. -/
def stream_events (ups : List StepUpdate) : List (List NodeData) :=
  ups.map fun u => [⟨some u.2⟩]

/-- `LangGraphChatAgent.predict` (app.py lines 110-124): drain the update
stream; for each event and each of its node dicts, extend the result with
`node_data.get("messages", [])`. -/
def predict (events : List (List NodeData)) : List Msg :=
  events.flatMap fun ev => ev.flatMap fun nd => nd.messages.getD []

/-- One event's worth of `predict_stream`'s generator body: yield a chunk
per message of `node_data["messages"]`; a dict without the key raises
`KeyError` after the chunks already yielded. -/
def predict_stream_event : List NodeData → List Msg × Option AgentError
  | [] => ([], none)
  | nd :: rest =>
      match nd.messages with
      | none => ([], some (.keyError "messages"))
      | some ms =>
          (ms ++ (predict_stream_event rest).1, (predict_stream_event rest).2)

/-- `LangGraphChatAgent.predict_stream` (app.py lines 126-137): the chunks
the generator yields, in order, and the error that terminates it early, if
any (each chunk's delta is one message). -/
def predict_stream (events : List (List NodeData)) :
    List Msg × Option AgentError :=
  match events with
  | [] => ([], none)
  | ev :: rest =>
      match predict_stream_event ev with
      | (cs, some e) => (cs, some e)
      | (cs, none) =>
          (cs ++ (predict_stream rest).1, (predict_stream rest).2)

/-- A concrete one-tool registry whose registered tool always raises,
used to exercise the executor's failure handling. -/
def demo_registry : List Tool :=
  [{ name := "execute_python_code", description := "runs python code",
     invoke := fun _ => .error "boom" }]

/-- Concrete requests: one naming an unregistered tool, one whose
invocation raises. -/
def demo_requests : List ToolCallRequest :=
  [{ id := "c1", tool_name := "nope", arguments := "x" },
   { id := "c2", tool_name := "execute_python_code", arguments := "2+2" }]

/-- A concrete assistant reply that always requests one tool call, used to
exercise the unbounded loop. -/
def loop_reply : Msg :=
  { role := "assistant", content := some "loop",
    tool_calls := some
      [{ id := "c1", tool_name := "execute_python_code",
         arguments := "2+2" }] }

/-- C2: the Router returns "tools" exactly when the last message's
tool_calls is present and non-empty; otherwise it returns the terminal
decision END; and a last message with tool_calls = empty list routes
exactly as one with no tool_calls at all. -/
theorem c2_router (ms : List Msg) (m : Msg) :
    (should_continue ⟨ms ++ [m]⟩ = .ok .tools ↔
      ∃ l, m.tool_calls = some l ∧ l ≠ []) ∧
    (should_continue ⟨ms ++ [m]⟩ = .ok .END ↔
      (m.tool_calls = none ∨ m.tool_calls = some [])) ∧
    should_continue ⟨ms ++ [{ m with tool_calls := some [] }]⟩ =
      should_continue ⟨ms ++ [{ m with tool_calls := none }]⟩ := by
  have hlast : (ms ++ [m]).getLast? = some m := by
    simp [List.getLast?_append]
  refine ⟨?_, ?_, ?_⟩
  · simp only [should_continue, hlast]
    rcases h : m.tool_calls with _ | l
    · simp [pyTruthy]
    · rcases l with _ | ⟨a, l⟩
      · simp [pyTruthy]
      · simp [pyTruthy]
  · simp only [should_continue, hlast]
    rcases h : m.tool_calls with _ | l
    · simp [pyTruthy]
    · rcases l with _ | ⟨a, l⟩
      · simp [pyTruthy]
      · simp [pyTruthy]
  · simp [should_continue, List.getLast?_append, pyTruthy]

/-- C5: on every model invocation — at every attempt — the input the model
sees is exactly one system message carrying the preamble, prepended to the
current state's messages; in particular with the app's fixed preamble
`system_prompt`. -/
theorem c5_model_input (rawModel : List Msg → Nat → Except Unit Msg)
    (sp : Option String) (state : ChatAgentState) (attempt : Nat) :
    model_runnable rawModel sp state attempt =
      rawModel
        ({ role := "system", content := sp, tool_calls := none,
           tool_call_id := none } :: state.messages) attempt ∧
    model_runnable rawModel (some system_prompt) state attempt =
      rawModel
        ({ role := "system", content := some system_prompt,
           tool_calls := none, tool_call_id := none } :: state.messages)
        attempt := by
  constructor <;> rfl

/-- C10: with `system_prompt = None`, the preprocessor still prepends a
system message unconditionally — the output is one message longer and its
head is a system message whose content is the null value, not an omitted
message. -/
theorem c10_null_system_prompt (state : ChatAgentState) :
    preprocessor none state =
      { role := "system", content := none, tool_calls := none,
        tool_call_id := none } :: state.messages ∧
    (preprocessor none state).length = state.messages.length + 1 ∧
    (preprocessor none state).head?.map Msg.content = some none := by
  refine ⟨rfl, by simp [preprocessor], rfl⟩

theorem call_model_go_pos (invoke : Nat → Except Unit Msg) (i : Nat)
    (retry : Int) (h : 0 ≤ retry) :
    call_model_go invoke i retry =
      match invoke i with
      | .ok response => .ok response
      | .error _ => call_model_go invoke (i + 1) (retry - 1) := by
  rw [call_model_go]
  simp [h]

theorem call_model_go_neg (invoke : Nat → Except Unit Msg) (i : Nat)
    (retry : Int) (h : retry < 0) :
    call_model_go invoke i retry = .error (.unboundLocal "response") := by
  rw [call_model_go]
  simp [Int.not_le.mpr h]

/-- If every attempt in the window `[i, i + retry.toNat]` fails, the loop
exhausts its budget and exits with `response` unbound. -/
theorem call_model_go_all_fail (invoke : Nat → Except Unit Msg) :
    ∀ (n i : Nat) (retry : Int), retry.toNat = n → 0 ≤ retry →
    (∀ j, i ≤ j → j ≤ i + n → invoke j = .error ()) →
    call_model_go invoke i retry = .error (.unboundLocal "response") := by
  intro n
  induction n with
  | zero =>
      intro i retry hn hpos hfail
      have hi : invoke i = .error () := hfail i (le_refl i) (by omega)
      rw [call_model_go_pos invoke i retry hpos, hi]
      have : retry = 0 := by omega
      exact call_model_go_neg invoke (i + 1) (retry - 1) (by omega)
  | succ m ih =>
      intro i retry hn hpos hfail
      have hi : invoke i = .error () := hfail i (le_refl i) (by omega)
      rw [call_model_go_pos invoke i retry hpos, hi]
      exact ih (i + 1) (retry - 1) (by omega) (by omega)
        (fun j hj1 hj2 => hfail j (by omega) (by omega))

/-- If the attempts at `i, i+1, …, i+k-1` fail, `k ≤ retry.toNat`, and the
attempt at `i + k` succeeds with `m`, the loop returns `m`. -/
theorem call_model_go_first_success (invoke : Nat → Except Unit Msg)
    (m : Msg) :
    ∀ (k i : Nat) (retry : Int), 0 ≤ retry → k ≤ retry.toNat →
    (∀ j, i ≤ j → j < i + k → invoke j = .error ()) →
    invoke (i + k) = .ok m →
    call_model_go invoke i retry = .ok m := by
  intro k
  induction k with
  | zero =>
      intro i retry hpos _ _ hsucc
      rw [call_model_go_pos invoke i retry hpos]
      simp only [Nat.add_zero] at hsucc
      rw [hsucc]
  | succ p ih =>
      intro i retry hpos hk hfail hsucc
      have hi : invoke i = .error () := hfail i (le_refl i) (by omega)
      rw [call_model_go_pos invoke i retry hpos, hi]
      exact ih (i + 1) (retry - 1) (by omega) (by omega)
        (fun j hj1 hj2 => hfail j (by omega) (by omega))
        (by have : i + 1 + p = i + (p + 1) := by omega
            rw [this]; exact hsucc)

/-- If the very first attempt succeeds, `call_model` returns its message. -/
theorem call_model_attempt0 (invoke : ChatAgentState → Nat → Except Unit Msg)
    (state : ChatAgentState) (m : Msg) (h : invoke state 0 = .ok m) :
    call_model invoke state = .ok m := by
  unfold call_model
  rw [call_model_go_pos _ 0 10 (by decide), h]

/-- C3: when all 11 attempts (the initial one plus the 10-retry budget)
fail, `call_model` raises the unbound-local fault on `response` — not a
typed `ModelUnavailable` error; the run then fails in the first agent node
with no update emitted, so in streaming mode the invocation produces zero
chunks. -/
theorem c3_exhausted_retries (rawModel : List Msg → Nat → Except Unit Msg)
    (registry : List Tool) (sp : Option String) (state : ChatAgentState)
    (fuel : Nat)
    (hfail : ∀ i, i < 11 → rawModel (preprocessor sp state) i = .error ()) :
    call_model (model_runnable rawModel sp) state =
      .error (.unboundLocal "response") ∧
    AgentError.unboundLocal "response" ≠ AgentError.modelUnavailable ∧
    runGraph rawModel registry sp (fuel + 1) .agent state =
      ([], .failed (.unboundLocal "response")) ∧
    predict_stream
        (stream_events
          (runGraph rawModel registry sp (fuel + 1) .agent state).1) =
      ([], none) := by
  have hcm : call_model (model_runnable rawModel sp) state =
      .error (.unboundLocal "response") :=
    call_model_go_all_fail (model_runnable rawModel sp state) 10 0 10
      (by decide) (by decide) (fun j _ hj => hfail j (by omega))
  have hrun : runGraph rawModel registry sp (fuel + 1) .agent state =
      ([], .failed (.unboundLocal "response")) := by
    simp [runGraph, hcm]
  refine ⟨hcm, by decide, hrun, ?_⟩
  rw [hrun]
  rfl

/-- C3 witness: a concrete always-failing model makes `call_model` fail
with the unbound-local fault, and the run streams zero chunks. -/
theorem c3_witness :
    call_model (model_runnable (fun _ _ => .error ()) none) ⟨[]⟩ =
      .error (.unboundLocal "response") ∧
    AgentError.unboundLocal "response" ≠ AgentError.modelUnavailable ∧
    runGraph (fun _ _ => .error ()) demo_registry none 1 .agent ⟨[]⟩ =
      ([], .failed (.unboundLocal "response")) ∧
    predict_stream
        (stream_events
          (runGraph (fun _ _ => .error ()) demo_registry none 1 .agent
            ⟨[]⟩).1) = ([], none) :=
  c3_exhausted_retries (fun _ _ => .error ()) demo_registry none ⟨[]⟩ 0
    (fun _ _ => rfl)

/-- C4: if the first `k` attempts fail and attempt `k` succeeds with
message `m`, with `k` within the budget of 11 total attempts (1 initial +
10 retries), `call_model` returns `m` — the message of the first successful
attempt, every attempt being made on the unchanged `state`. -/
theorem c4_first_success (invoke : ChatAgentState → Nat → Except Unit Msg)
    (state : ChatAgentState) (k : Nat) (m : Msg) (hk : k < 11)
    (hfail : ∀ j, j < k → invoke state j = .error ())
    (hsucc : invoke state k = .ok m) :
    call_model invoke state = .ok m :=
  call_model_go_first_success (invoke state) m k 0 10 (by decide)
    (by omega) (fun j _ hj => hfail j (by omega))
    (by simpa using hsucc)

/-- C4 witness: a model that fails twice then answers returns the third
attempt's message. -/
theorem c4_witness :
    call_model
      (fun _ i =>
        if i < 2 then .error ()
        else .ok { role := "assistant", content := some "4" }) ⟨[]⟩ =
      .ok { role := "assistant", content := some "4" } :=
  c4_first_success
    (fun _ i =>
      if i < 2 then .error ()
      else .ok { role := "assistant", content := some "4" })
    ⟨[]⟩ 2 { role := "assistant", content := some "4" } (by omega)
    (fun j hj => by interval_cases j <;> rfl) rfl

theorem predict_cons (ev : List NodeData) (evs : List (List NodeData)) :
    predict (ev :: evs) =
      ev.flatMap (fun nd => nd.messages.getD []) ++ predict evs := by
  simp [predict]

/-- On an event whose node dicts all carry the "messages" key, the
generator yields exactly the buffered messages and raises nothing. -/
theorem predict_stream_event_total (ev : List NodeData)
    (h : ∀ d ∈ ev, d.messages ≠ none) :
    predict_stream_event ev =
      (ev.flatMap (fun nd => nd.messages.getD []), none) := by
  induction ev with
  | nil => rfl
  | cons nd rest ih =>
      rcases hnd : nd.messages with _ | ms
      · exact absurd hnd (h nd (by simp))
      · simp [predict_stream_event, hnd,
          ih (fun d hd => h d (by simp [hd]))]

theorem predict_stream_cons_ok (ev : List NodeData)
    (evs : List (List NodeData)) (cs : List Msg)
    (h : predict_stream_event ev = (cs, none)) :
    predict_stream (ev :: evs) =
      (cs ++ (predict_stream evs).1, (predict_stream evs).2) := by
  simp [predict_stream, h]

theorem predict_stream_cons_err (ev : List NodeData)
    (evs : List (List NodeData)) (cs : List Msg) (e : AgentError)
    (h : predict_stream_event ev = (cs, some e)) :
    predict_stream (ev :: evs) = (cs, some e) := by
  simp [predict_stream, h]

/-- On events whose node dicts all carry the "messages" key, the streaming
adapter yields exactly the buffered adapter's messages and raises
nothing. -/
theorem predict_stream_total (evs : List (List NodeData))
    (h : ∀ ev ∈ evs, ∀ d ∈ ev, d.messages ≠ none) :
    predict_stream evs = (predict evs, none) := by
  induction evs with
  | nil => rfl
  | cons ev rest ih =>
      rw [predict_stream_cons_ok ev rest _
          (predict_stream_event_total ev (h ev (by simp))),
        ih (fun e he d hd => h e (by simp [he]) d hd), predict_cons]

/-- The update stream of a graph run always carries the "messages" key. -/
theorem stream_events_total (ups : List StepUpdate) :
    ∀ ev ∈ stream_events ups, ∀ d ∈ ev, d.messages ≠ none := by
  intro ev hev d hd
  simp only [stream_events, List.mem_map] at hev
  obtain ⟨u, hu, rfl⟩ := hev
  simp only [List.mem_singleton] at hd
  subst hd
  simp

/-- C1: for every input message list (and any model, registry, preamble and
observation bound), the message sequence `predict` accumulates from the
graph's update stream equals, in order, the concatenation of the chunk
deltas `predict_stream` emits for the same input, and the stream raises
nothing. -/
theorem c1_predict_eq_stream (rawModel : List Msg → Nat → Except Unit Msg)
    (registry : List Tool) (sp : Option String) (fuel : Nat)
    (input : List Msg) :
    predict
        (stream_events
          (runGraph rawModel registry sp fuel .agent ⟨input⟩).1) =
      (predict_stream
          (stream_events
            (runGraph rawModel registry sp fuel .agent ⟨input⟩).1)).1 ∧
    (predict_stream
        (stream_events
          (runGraph rawModel registry sp fuel .agent ⟨input⟩).1)).2 =
      none := by
  rw [predict_stream_total _
    (stream_events_total (runGraph rawModel registry sp fuel .agent ⟨input⟩).1)]
  exact ⟨rfl, rfl⟩

/-- C6: if the model's first reply for the seeded conversation has an
absent or empty tool_calls sequence, the graph reaches END after exactly
one execution of the agent node — the update stream is the single agent
step and the tools node never runs — for every fuel bound at least 1. -/
theorem c6_first_reply_final (rawModel : List Msg → Nat → Except Unit Msg)
    (registry : List Tool) (sp : Option String) (input : List Msg)
    (reply : Msg)
    (h0 : rawModel (preprocessor sp ⟨input⟩) 0 = .ok reply)
    (hr : reply.tool_calls = none ∨ reply.tool_calls = some [])
    (fuel : Nat) :
    runGraph rawModel registry sp (fuel + 1) .agent ⟨input⟩ =
      ([("agent", [reply])], .finished ⟨input ++ [reply]⟩) := by
  have hcm : call_model (model_runnable rawModel sp) ⟨input⟩ = .ok reply :=
    call_model_attempt0 _ _ _ h0
  have hlast : (input ++ [reply]).getLast? = some reply := by
    simp [List.getLast?_append]
  have hsc : should_continue ⟨input ++ [reply]⟩ = .ok .END := by
    rcases hr with h | h <;> simp [should_continue, hlast, pyTruthy, h]
  simp [runGraph, hcm, hsc]

/-- C6 witness: a model that answers "4" with no tool_calls terminates in
one agent step on the simple Q&A conversation. -/
theorem c6_witness :
    runGraph (fun _ _ => .ok { role := "assistant", content := some "4" })
        [] (some system_prompt) 1 .agent
        ⟨[{ role := "user", content := some "2+2?" }]⟩ =
      ([("agent", [{ role := "assistant", content := some "4" }])],
        .finished
          ⟨[{ role := "user", content := some "2+2?" },
            { role := "assistant", content := some "4" }]⟩) :=
  c6_first_reply_final
    (fun _ _ => .ok { role := "assistant", content := some "4" }) []
    (some system_prompt) [{ role := "user", content := some "2+2?" }]
    { role := "assistant", content := some "4" } rfl (Or.inl rfl) 0

/-- C9: a step update whose node dict has no "messages" entry is skipped by
`predict`, which stays total and still accumulates the surrounding events,
while `predict_stream` reads the key unconditionally: it raises `KeyError`
there, having emitted only the chunks of the preceding events. -/
theorem c9_missing_messages_key (pre post : List (List NodeData))
    (nd : NodeData) (hnd : nd.messages = none)
    (hpre : ∀ ev ∈ pre, ∀ d ∈ ev, d.messages ≠ none) :
    predict (pre ++ [nd] :: post) = predict pre ++ predict post ∧
    (predict_stream (pre ++ [nd] :: post)).1 = predict pre ∧
    (predict_stream (pre ++ [nd] :: post)).2 =
      some (.keyError "messages") := by
  have hev : predict_stream_event [nd] = ([], some (.keyError "messages")) := by
    simp [predict_stream_event, hnd]
  have hstream : ∀ pre2 : List (List NodeData),
      (∀ ev ∈ pre2, ∀ d ∈ ev, d.messages ≠ none) →
      predict_stream (pre2 ++ [nd] :: post) =
        (predict pre2, some (.keyError "messages")) := by
    intro pre2 h2
    induction pre2 with
    | nil =>
        rw [List.nil_append, predict_stream_cons_err [nd] post _ _ hev]
        rfl
    | cons ev rest ih =>
        rw [List.cons_append,
          predict_stream_cons_ok ev (rest ++ [nd] :: post) _
            (predict_stream_event_total ev (h2 ev (by simp))),
          ih (fun e he d hd => h2 e (by simp [he]) d hd), predict_cons]
    -- the two components of the pair
  refine ⟨?_, ?_, ?_⟩
  · simp [predict, hnd]
  · rw [hstream pre hpre]
  · rw [hstream pre hpre]

/-- C9 witness: with one well-formed event before and after, the buffered
adapter returns both surrounding messages while the streaming adapter
yields only the first and then raises `KeyError`. -/
theorem c9_witness :
    predict
        ([[⟨some [{ role := "assistant", content := some "a" }]⟩]] ++
          [⟨(none : Option (List Msg))⟩] ::
            [[⟨some [{ role := "assistant", content := some "b" }]⟩]]) =
      predict [[⟨some [{ role := "assistant", content := some "a" }]⟩]] ++
        predict [[⟨some [{ role := "assistant", content := some "b" }]⟩]] ∧
    (predict_stream
        ([[⟨some [{ role := "assistant", content := some "a" }]⟩]] ++
          [⟨(none : Option (List Msg))⟩] ::
            [[⟨some [{ role := "assistant", content := some "b" }]⟩]])).1 =
      predict [[⟨some [{ role := "assistant", content := some "a" }]⟩]] ∧
    (predict_stream
        ([[⟨some [{ role := "assistant", content := some "a" }]⟩]] ++
          [⟨(none : Option (List Msg))⟩] ::
            [[⟨some [{ role := "assistant", content := some "b" }]⟩]])).2 =
      some (.keyError "messages") :=
  c9_missing_messages_key
    [[⟨some [{ role := "assistant", content := some "a" }]⟩]]
    [[⟨some [{ role := "assistant", content := some "b" }]⟩]]
    ⟨none⟩ rfl (by simp)

/-- C7: the executor returns one result per request in request order; a
request naming an unregistered tool, or one whose invocation raises, yields
a result with failed=true and an explanatory output while the remaining
requests are still processed; and the tools node never turns a tool failure
into a process-level fault — the graph proceeds to the next step for every
registry and state. -/
theorem c7_tool_isolation (registry : List Tool)
    (requests : List ToolCallRequest)
    (rawModel : List Msg → Nat → Except Unit Msg) (sp : Option String) :
    (execute registry requests).length = requests.length ∧
    (∀ (i : Nat) (req : ToolCallRequest), requests[i]? = some req →
      (execute registry requests)[i]? = some (execute_one registry req) ∧
      (execute_one registry req).tool_call_id = req.id ∧
      (registry.find? (fun tl => tl.name == req.tool_name) = none →
        (execute_one registry req).failed = true ∧
        (execute_one registry req).output =
          "Error: unknown tool " ++ req.tool_name) ∧
      (∀ t e, registry.find? (fun tl => tl.name == req.tool_name) = some t →
        t.invoke req.arguments = .error e →
        (execute_one registry req).failed = true ∧
        (execute_one registry req).output = e)) ∧
    (∀ (fuel : Nat) (s : ChatAgentState),
      (runGraph rawModel registry sp (fuel + 1) .tools s).2 =
        (runGraph rawModel registry sp fuel .agent
          ⟨s.messages ++ tool_node registry s⟩).2) := by
  refine ⟨by simp [execute], ?_, ?_⟩
  · intro i req hi
    refine ⟨by simp [execute, hi], ?_, ?_, ?_⟩
    · rcases hf : registry.find? (fun tl => tl.name == req.tool_name)
        with _ | t
      · simp [execute_one, hf]
      · rcases hv : t.invoke req.arguments with e | out <;>
          simp [execute_one, hf, hv]
    · intro hf
      simp [execute_one, hf]
    · intro t e hf hv
      simp [execute_one, hf, hv]
  · intro fuel s
    simp [runGraph]

/-- C7 witness: on the concrete registry and requests, the unknown-tool
request and the raising request each produce an in-place failed result. -/
theorem c7_witness :
    ((execute demo_registry demo_requests)[0]? =
        some (execute_one demo_registry
          { id := "c1", tool_name := "nope", arguments := "x" }) ∧
      (execute_one demo_registry
          { id := "c1", tool_name := "nope", arguments := "x" }).tool_call_id =
        "c1" ∧
      (demo_registry.find? (fun tl => tl.name == "nope") = none →
        (execute_one demo_registry
            { id := "c1", tool_name := "nope", arguments := "x" }).failed =
          true ∧
        (execute_one demo_registry
            { id := "c1", tool_name := "nope", arguments := "x" }).output =
          "Error: unknown tool " ++ "nope") ∧
      (∀ t e, demo_registry.find? (fun tl => tl.name == "nope") = some t →
        t.invoke "x" = .error e →
        (execute_one demo_registry
            { id := "c1", tool_name := "nope", arguments := "x" }).failed =
          true ∧
        (execute_one demo_registry
            { id := "c1", tool_name := "nope", arguments := "x" }).output =
          e)) ∧
    ((execute demo_registry demo_requests)[1]? =
        some (execute_one demo_registry
          { id := "c2", tool_name := "execute_python_code",
            arguments := "2+2" }) ∧
      (execute_one demo_registry
          { id := "c2", tool_name := "execute_python_code",
            arguments := "2+2" }).tool_call_id = "c2" ∧
      (demo_registry.find? (fun tl => tl.name == "execute_python_code") =
          none →
        (execute_one demo_registry
            { id := "c2", tool_name := "execute_python_code",
              arguments := "2+2" }).failed = true ∧
        (execute_one demo_registry
            { id := "c2", tool_name := "execute_python_code",
              arguments := "2+2" }).output =
          "Error: unknown tool " ++ "execute_python_code") ∧
      (∀ t e,
        demo_registry.find? (fun tl => tl.name == "execute_python_code") =
          some t →
        t.invoke "2+2" = .error e →
        (execute_one demo_registry
            { id := "c2", tool_name := "execute_python_code",
              arguments := "2+2" }).failed = true ∧
        (execute_one demo_registry
            { id := "c2", tool_name := "execute_python_code",
              arguments := "2+2" }).output = e)) :=
  ⟨(c7_tool_isolation demo_registry demo_requests (fun _ _ => .error ())
        none).2.1 0
      { id := "c1", tool_name := "nope", arguments := "x" } rfl,
    (c7_tool_isolation demo_registry demo_requests (fun _ _ => .error ())
        none).2.1 1
      { id := "c2", tool_name := "execute_python_code", arguments := "2+2" }
      rfl⟩

/-- C8: the graph has no iteration cap — the tools node unconditionally
hands control back to the agent node, and for a model whose every reply
requests tools, no fuel bound ever suffices for the run to terminate: every
bounded observation ends out of fuel, never at END. -/
theorem c8_no_iteration_cap (rawModel : List Msg → Nat → Except Unit Msg)
    (registry : List Tool) (sp : Option String)
    (hm : ∀ input i, ∃ m l, rawModel input i = .ok m ∧
      m.tool_calls = some l ∧ l ≠ []) :
    (∀ fuel s, runGraph rawModel registry sp (fuel + 1) .tools s =
        (("tools", tool_node registry s) ::
            (runGraph rawModel registry sp fuel .agent
              ⟨s.messages ++ tool_node registry s⟩).1,
          (runGraph rawModel registry sp fuel .agent
            ⟨s.messages ++ tool_node registry s⟩).2)) ∧
    (∀ fuel nd s, ∃ nd2 s2,
      (runGraph rawModel registry sp fuel nd s).2 = .outOfFuel nd2 s2) := by
  constructor
  · intro fuel s
    simp [runGraph]
  · intro fuel
    induction fuel with
    | zero => intro nd s; exact ⟨nd, s, rfl⟩
    | succ n ih =>
        intro nd s
        cases nd with
        | tools =>
            have h := ih .agent ⟨s.messages ++ tool_node registry s⟩
            simpa [runGraph] using h
        | agent =>
            obtain ⟨m, l, hok, htc, hl⟩ := hm (preprocessor sp s) 0
            have hcm : call_model (model_runnable rawModel sp) s = .ok m :=
              call_model_attempt0 _ _ _ hok
            have hlast : (s.messages ++ [m]).getLast? = some m := by
              simp [List.getLast?_append]
            have hsc : should_continue ⟨s.messages ++ [m]⟩ = .ok .tools := by
              rcases l with _ | ⟨a, rest⟩
              · exact absurd rfl hl
              · simp [should_continue, hlast, pyTruthy, htc]
            have h := ih .tools ⟨s.messages ++ [m]⟩
            simpa [runGraph, hcm, hsc] using h

/-- C8 witness: with a model that always requests a tool call, a run with
fuel 5 from the agent node ends out of fuel rather than at END. -/
theorem c8_witness :
    ∃ nd2 s2,
      (runGraph (fun _ _ => .ok loop_reply) demo_registry none 5 .agent
          ⟨[]⟩).2 = .outOfFuel nd2 s2 :=
  (c8_no_iteration_cap (fun _ _ => .ok loop_reply) demo_registry none
      (fun _ _ =>
        ⟨loop_reply,
          [{ id := "c1", tool_name := "execute_python_code",
             arguments := "2+2" }],
          rfl, rfl, List.cons_ne_nil _ _⟩)).2 5 .agent ⟨[]⟩
